import Mathlib

/-!
Shallow embedding of the Groq–Firecrawl MCP server
(`configs.py`, `firecrawl_service.py`, `groq_service.py`, `mcp_server.py`).

External HTTP traffic is modelled by a `Net` oracle that yields, for each
outbound request, either a transport-level exception (`Except.error`) or an
`HttpResponse` (status code, raw text, decoded JSON payload).  Every handler
is embedded as a pure function from the application context, the oracle and
its arguments to the returned string together with the ordered trace of
side-effecting steps (log lines, progress reports, network calls), exactly
in the order the Python code performs them.
-/

/-- A search result item, as the dictionary `{title, url, snippet}`; absent
keys are `none` (Python `dict.get`). -/
structure SearchItem where
  title : Option String
  url : Option String
  snippet : Option String
deriving DecidableEq, Repr

/-- The `metadata` sub-dictionary of a scrape response. -/
structure PageMetadata where
  title : Option String
  description : Option String
  author : Option String
  published_date : Option String
deriving DecidableEq, Repr

/-- The JSON body of a scrape response: `{text, metadata, links}` with every
key possibly absent. -/
structure ScrapeResult where
  text : Option String
  metadata : Option PageMetadata
  links : Option (List String)
deriving DecidableEq, Repr

/-- An HTTP response: status code, raw body text, and the decoded JSON
payload relevant to the caller. -/
structure HttpResponse (α : Type) where
  status : Nat
  text : String
  json : α
deriving DecidableEq, Repr

/-- Oracle for the network: what each outbound POST returns.  `Except.error`
models a transport-level exception (timeout, connection error, ...);
`Except.ok` models a delivered HTTP response.  For the chat endpoint the
`json` field is the already-extracted first-choice message content. -/
structure Net where
  scrapeResponse : String → Except String (HttpResponse ScrapeResult)
  searchResponse : String → Int → Except String (HttpResponse (List SearchItem))
  chatResponse : String → Except String (HttpResponse String)

/-- `configs.py`: the `AppConfig` dataclass. -/
structure AppConfig where
  groq_api_key : String
  firecrawl_api_key : String
  groq_model : String := "llama3-70b-8192"
  default_search_limit : Int := 5
  request_timeout : Int := 30
deriving DecidableEq, Repr

/-- `groq_service.py`: the `GroqService` client object. -/
structure GroqService where
  api_key : String
  model : String
  base_url : String := "https://api.groq.com/v1"
deriving DecidableEq, Repr

/-- `firecrawl_service.py`: the `FirecrawlService` client object. -/
structure FirecrawlService where
  api_key : String
  base_url : String := "https://api.firecrawl.com/v1"
deriving DecidableEq, Repr

/-- `mcp_server.py`: the `AppContext` dataclass produced by the lifespan. -/
structure AppContext where
  config : AppConfig
  groq_service : GroqService
  firecrawl_service : FirecrawlService
deriving DecidableEq, Repr

/-- One observable side-effecting step of a handler, in program order:
a `ctx.info` log line, a `ctx.report_progress` call, or one outbound
network request. -/
inductive Event where
  | info (msg : String)
  | progress (current total : Int)
  | searchCall (query : String) (limit : Int)
  | scrapeCall (url : String)
  | generateCall (prompt : String)
deriving DecidableEq, Repr

/-- Message of the exception raised by `FirecrawlService` on a non-200
response: `f"Firecrawl API error: {response.status_code} - {response.text}"`. -/
def firecrawlErrMsg {α : Type} (r : HttpResponse α) : String :=
  "Firecrawl API error: " ++ toString r.status ++ " - " ++ r.text

/-- Message of the exception raised by `GroqService` on a non-200 response:
`f"Groq API error: {response.status_code} - {response.text}"`. -/
def groqErrMsg {α : Type} (r : HttpResponse α) : String :=
  "Groq API error: " ++ toString r.status ++ " - " ++ r.text

/-- `FirecrawlService.scrape_website`: one POST to `/scrape`; raises on a
non-200 status, else returns the JSON body. -/
def FirecrawlService.scrape_website ( self : FirecrawlService) (net : Net)
    (url : String) : Except String ScrapeResult :=
  match net.scrapeResponse url with
  | .error e => .error e
  | .ok r => if r.status ≠ 200 then .error (firecrawlErrMsg r) else .ok r.json

/-- `FirecrawlService.search_web`: one POST to `/search`; raises on a
non-200 status, else returns `response.json()["results"]`. -/
def FirecrawlService.search_web ( self : FirecrawlService) (net : Net)
    (query : String) (limit : Int) : Except String (List SearchItem) :=
  match net.searchResponse query limit with
  | .error e => .error e
  | .ok r => if r.status ≠ 200 then .error (firecrawlErrMsg r) else .ok r.json

/-- `GroqService.generate_text`: one POST to `/chat/completions`; raises on a
non-200 status, else returns `result["choices"][0]["message"]["content"]`. -/
def GroqService.generate_text ( self : GroqService) (net : Net)
    (prompt : String) : Except String String :=
  match net.chatResponse prompt with
  | .error e => .error e
  | .ok r => if r.status ≠ 200 then .error (groqErrMsg r) else .ok r.json

/-- The fixed prompt template built by `GroqService.summarize_content`. -/
def summarize_prompt (content : String) (max_length : Int) : String :=
  "Please summarize the following content in a concise way, maximum "
    ++ toString max_length ++ " words:\n\n" ++ content

/-- `GroqService.summarize_content`: builds the summarization prompt and
delegates to `generate_text`. -/
def GroqService.summarize_content ( self : GroqService) (net : Net)
    (content : String) (max_length : Int) : Except String String :=
  self.generate_text net (summarize_prompt content max_length)

/-- Python `enumerate`, starting from a given index. -/
def enumIdx {α : Type} : Nat → List α → List (Nat × α)
  | _, [] => []
  | n, a :: rest => (n, a) :: enumIdx (n + 1) rest

/-- ASCII digit test for modelling Python `int()`. -/
def isAsciiDigit (c : Char) : Bool := decide ('0' ≤ c) && decide (c ≤ '9')

/-- Digit-string value for Python `int()`: digits with single underscores
allowed between digits, rejecting leading/trailing/doubled underscores. -/
def parseDigitsCore : Nat → List Char → Option Nat
  | acc, [] => some acc
  | acc, c :: rest =>
    if isAsciiDigit c then parseDigitsCore (acc * 10 + (c.toNat - 48)) rest
    else if c = '_' then
      match rest with
      | [] => none
      | d :: rest2 =>
        if isAsciiDigit d then parseDigitsCore (acc * 10 + (d.toNat - 48)) rest2
        else none
    else none

/-- Parse a nonempty digit group (first character must be a digit). -/
def parseDigits : List Char → Option Nat
  | [] => none
  | c :: rest =>
    if isAsciiDigit c then parseDigitsCore (c.toNat - 48) rest else none

/-- Python `str.strip()` on a character list: drop whitespace at both ends. -/
def pyStrip (l : List Char) : List Char :=
  ((l.dropWhile Char.isWhitespace).reverse.dropWhile Char.isWhitespace).reverse

/-- Model of Python `int(s)` on a `str`: strip surrounding whitespace,
optional sign, then a digit group; `none` models `ValueError`. -/
def pythonInt (s : String) : Option Int :=
  match pyStrip s.data with
  | '+' :: rest => (parseDigits rest).map (fun n => (n : Int))
  | '-' :: rest => (parseDigits rest).map (fun n => -(n : Int))
  | l => (parseDigits l).map (fun n => (n : Int))

/-- The `limit` parsing of the `search://{query}/{limit}` resource:
`int(limit) if limit else config.default_search_limit`, with `ValueError`
falling back to the default. -/
def parseLimit (config : AppConfig) (limit : String) : Int :=
  if limit = "" then config.default_search_limit
  else
    match pythonInt limit with
    | some n => n
    | none => config.default_search_limit

/-- Resource `website://{url}` (`get_website_content`). -/
def get_website_content (app : AppContext) (net : Net) (url : String) :
    String × List Event :=
  let ev := [Event.info ("Scraping website: " ++ url), Event.scrapeCall url]
  match app.firecrawl_service.scrape_website net url with
  | .ok result => (result.text.getD "No content found", ev)
  | .error e => ("Error scraping website: " ++ e, ev)

/-- The lines formatted for one search result by the `search_web` resource. -/
def searchResultLines (i : Nat) (r : SearchItem) : List String :=
  let t := r.title.getD "No title"
  let u := r.url.getD "No URL"
  let s := r.snippet.getD "No snippet"
  ["Result " ++ toString i ++ ":", "Title: " ++ t, "URL: " ++ u,
   "Snippet: " ++ s, ""]

/-- Resource `search://{query}/{limit}` (`search_web`). -/
def search_web (app : AppContext) (net : Net) (query limit : String) :
    String × List Event :=
  let limit_int := parseLimit app.config limit
  let ev := [Event.info ("Searching web for: " ++ query ++ " with limit "
               ++ toString limit_int),
             Event.searchCall query limit_int]
  match app.firecrawl_service.search_web net query limit_int with
  | .ok results =>
    ("\n".intercalate ((enumIdx 1 results).map
        (fun p => searchResultLines p.1 p.2)).flatten, ev)
  | .error e => ("Error searching web: " ++ e, ev)

/-- Resource `metadata://{url}` (`get_website_metadata`). -/
def get_website_metadata (app : AppContext) (net : Net) (url : String) :
    String × List Event :=
  let ev := [Event.info ("Getting metadata for website: " ++ url),
             Event.scrapeCall url]
  match app.firecrawl_service.scrape_website net url with
  | .ok result =>
    let metadata := result.metadata.getD ⟨none, none, none, none⟩
    let t := metadata.title.getD "No title"
    let d := metadata.description.getD "No description"
    let a := metadata.author.getD "No author"
    let p := metadata.published_date.getD "No date"
    ("\n".intercalate ["Title: " ++ t, "Description: " ++ d,
       "Author: " ++ a, "Published: " ++ p], ev)
  | .error e => ("Error getting metadata: " ++ e, ev)

/-- Tool `generate_content`. -/
def generate_content (app : AppContext) (net : Net) (prompt : String) :
    String × List Event :=
  let ev := [Event.info ("Generating content with prompt: "
               ++ prompt.take 50 ++ "..."),
             Event.generateCall prompt]
  match app.groq_service.generate_text net prompt with
  | .ok t => (t, ev)
  | .error e => ("Error generating content: " ++ e, ev)

/-- Tool `summarize_text`. -/
def summarize_text (app : AppContext) (net : Net) (content : String)
    (max_length : Int) : String × List Event :=
  let ev := [Event.info ("Summarizing content of length "
               ++ toString content.length ++ " with max length "
               ++ toString max_length),
             Event.generateCall (summarize_prompt content max_length)]
  match app.groq_service.summarize_content net content max_length with
  | .ok t => (t, ev)
  | .error e => ("Error summarizing content: " ++ e, ev)

/-- Tool `analyze_website`. -/
def analyze_website (app : AppContext) (net : Net) (url : String)
    (include_summary : Bool) : String × List Event :=
  let ev0 := [Event.info ("Analyzing website: " ++ url),
              Event.progress 0 3, Event.scrapeCall url]
  match app.firecrawl_service.scrape_website net url with
  | .error e => ("Error analyzing website: " ++ e, ev0)
  | .ok scrape_result =>
    let content := scrape_result.text.getD ""
    let metadata := scrape_result.metadata.getD ⟨none, none, none, none⟩
    let t := metadata.title.getD "No title"
    let d := metadata.description.getD "No description"
    let analysis := ["Website Analysis: " ++ url, "Title: " ++ t,
      "Description: " ++ d,
      "Content Length: " ++ toString content.length ++ " characters",
      "Links Found: " ++ toString (scrape_result.links.getD []).length]
    let ev1 := ev0 ++ [Event.progress 1 3]
    if include_summary ∧ content ≠ "" then
      let ev2 := ev1 ++ [Event.progress 2 3,
                         Event.generateCall (summarize_prompt content 500)]
      match app.groq_service.summarize_content net content 500 with
      | .error e => ("Error analyzing website: " ++ e, ev2)
      | .ok summary =>
        ("\n".intercalate (analysis ++ ["\nSummary:", summary]),
         ev2 ++ [Event.progress 3 3])
    else ("\n".intercalate analysis, ev1 ++ [Event.progress 3 3])

/-- A single-quote character, used by the research synthesis prompt. -/
def singleQuote : String := String.singleton (Char.ofNat 39)

/-- The synthesis prompt built in step 3 of `research_topic`. -/
def research_synthesis_prompt (topic research_text : String) : String :=
  "Based on the following research on " ++ singleQuote ++ topic
    ++ singleQuote ++ ", provide a comprehensive analysis:\n\n"
    ++ research_text

/-- The strings appended to `research_data` by one iteration of
`research_topic`'s per-source loop, for the item at (0-based) index `i`. -/
def itemLines (app : AppContext) (net : Net) (i : Nat) (result : SearchItem) :
    List String :=
  let url := result.url.getD ""
  if url = "" then []
  else
    match app.firecrawl_service.scrape_website net url with
    | .error e => ["Error analyzing " ++ url ++ ": " ++ e]
    | .ok scrape_result =>
      let content := scrape_result.text.getD ""
      if content = "" then []
      else
        match app.groq_service.summarize_content net content 300 with
        | .error e => ["Error analyzing " ++ url ++ ": " ++ e]
        | .ok summary =>
          let t := result.title.getD "No title"
          ["Source " ++ toString (i + 1) ++ ": " ++ t, "URL: " ++ url,
           "Summary: " ++ summary, ""]

/-- The side-effecting steps performed by one iteration of `research_topic`'s
per-source loop, in program order: nothing for a URL-less item; otherwise a
log line, the progress report `(i+1, depth+1)`, the scrape request, and — when
the scrape succeeded with nonempty text — the summarization request. -/
def itemEvents (app : AppContext) (net : Net) (depth : Int) (i : Nat)
    (result : SearchItem) : List Event :=
  let url := result.url.getD ""
  if url = "" then []
  else
    let ev := [Event.info ("Analyzing result " ++ toString (i + 1) ++ ": " ++ url),
               Event.progress ((i : Int) + 1) (depth + 1),
               Event.scrapeCall url]
    match app.firecrawl_service.scrape_website net url with
    | .error _ => ev
    | .ok scrape_result =>
      let content := scrape_result.text.getD ""
      if content = "" then ev
      else ev ++ [Event.generateCall (summarize_prompt content 300)]

/-- The full `research_data` list accumulated by `research_topic`'s loop. -/
def researchData (app : AppContext) (net : Net) (items : List SearchItem) :
    List String :=
  ((enumIdx 0 items).map (fun p => itemLines app net p.1 p.2)).flatten

/-- The full event trace of `research_topic`'s loop. -/
def researchEvents (app : AppContext) (net : Net) (depth : Int)
    (items : List SearchItem) : List Event :=
  ((enumIdx 0 items).map (fun p => itemEvents app net depth p.1 p.2)).flatten

/-- The events of `research_topic` up to and including the search request. -/
def researchHeadEvents (topic : String) (depth : Int) : List Event :=
  [Event.info ("Researching topic: " ++ topic ++ " with depth "
     ++ toString depth),
   Event.info "Searching web...",
   Event.progress 0 (depth + 1),
   Event.searchCall topic depth]

/-- Tool `research_topic`. -/
def research_topic (app : AppContext) (net : Net) (topic : String)
    (depth : Int) : String × List Event :=
  let ev0 := researchHeadEvents topic depth
  match app.firecrawl_service.search_web net topic depth with
  | .error e => ("Error researching topic: " ++ e, ev0)
  | .ok search_results =>
    if search_results.isEmpty then
      ("No search results found for topic: " ++ topic, ev0)
    else
      let research_data := researchData app net search_results
      let evItems := researchEvents app net depth search_results
      if research_data.isEmpty then
        ("Could not gather meaningful research data on topic: " ++ topic,
         ev0 ++ evItems)
      else
        let research_text := "\n".intercalate research_data
        let prompt := research_synthesis_prompt topic research_text
        let evAll := ev0 ++ evItems ++ [Event.generateCall prompt]
        match app.groq_service.generate_text net prompt with
        | .error e => ("Error researching topic: " ++ e, evAll)
        | .ok final_analysis =>
          ("# Research on: " ++ topic ++ "\n\n" ++ final_analysis
             ++ "\n\n## Sources\n\n" ++ research_text, evAll)

/-- `app_lifespan`: reads the three environment variables (an `Option String`
each), applies Python truthiness (`None` and `""` are both falsy), raises
`ValueError` when a mandatory key is missing, else builds the `AppContext`. -/
def app_lifespan (groq_api_key firecrawl_api_key groq_model_env :
    Option String) : Except String AppContext :=
  let g := groq_api_key.getD ""
  let f := firecrawl_api_key.getD ""
  let groq_model := groq_model_env.getD "llama3-70b-8192"
  if g = "" then .error "GROQ_API_KEY environment variable is required"
  else if f = "" then .error "FIRECRAWL_API_KEY environment variable is required"
  else .ok { config := { groq_api_key := g, firecrawl_api_key := f,
                         groq_model := groq_model },
             groq_service := { api_key := g, model := groq_model },
             firecrawl_service := { api_key := f } }

/-- `Except.isOk` as an executable Boolean. -/
def isOkE {ε α : Type} : Except ε α → Bool
  | .ok _ => true
  | .error _ => false

/-- Boolean string-prefix test (used to state the Error-string policy). -/
def startsWithStr (s p : String) : Bool := p.data.isPrefixOf s.data

/-- A fixed application context used by concrete witnesses. -/
def testApp : AppContext :=
  { config := { groq_api_key := "k", firecrawl_api_key := "k" },
    groq_service := { api_key := "k", model := "llama3-70b-8192" },
    firecrawl_service := { api_key := "k" } }

/-- Oracle: search finds nothing, everything else is down. -/
def emptyNet : Net :=
  { searchResponse := fun _ _ => .ok ⟨200, "", []⟩,
    scrapeResponse := fun _ => .error "down",
    chatResponse := fun _ => .error "down" }

/-- Oracle: one search hit at url `u`; scraping answers with HTTP 500;
generation succeeds with `A`. -/
def ceNet : Net :=
  { searchResponse := fun _ _ => .ok ⟨200, "", [⟨some "T", some "u", none⟩]⟩,
    scrapeResponse := fun _ => .ok ⟨500, "boom", ⟨none, none, none⟩⟩,
    chatResponse := fun _ => .ok ⟨200, "", "A"⟩ }

/-- Oracle: one search hit at url `u`; scrape and generation succeed. -/
def okNet : Net :=
  { searchResponse := fun _ _ => .ok ⟨200, "", [⟨some "T", some "u", none⟩]⟩,
    scrapeResponse := fun _ => .ok ⟨200, "", ⟨some "body", none, none⟩⟩,
    chatResponse := fun _ => .ok ⟨200, "", "A"⟩ }

/-- Oracle: two search hits; scraping `u1` fails at transport level, `u2`
succeeds; generation succeeds. -/
def mixedNet : Net :=
  { searchResponse := fun _ _ =>
      .ok ⟨200, "", [⟨some "T1", some "u1", none⟩, ⟨some "T2", some "u2", none⟩]⟩,
    scrapeResponse := fun u =>
      if u = "u1" then .error "netdown" else .ok ⟨200, "", ⟨some "body2", none, none⟩⟩,
    chatResponse := fun _ => .ok ⟨200, "", "S"⟩ }

/-- Oracle: two search hits, the first without a URL; scrape and generation
succeed. -/
def gapNet : Net :=
  { searchResponse := fun _ _ =>
      .ok ⟨200, "", [⟨some "T1", none, none⟩, ⟨some "T2", some "u2", none⟩]⟩,
    scrapeResponse := fun _ => .ok ⟨200, "", ⟨some "body2", none, none⟩⟩,
    chatResponse := fun _ => .ok ⟨200, "", "S"⟩ }

/-- Oracle: every request fails at transport level. -/
def errNet : Net :=
  { searchResponse := fun _ _ => .error "down",
    scrapeResponse := fun _ => .error "down",
    chatResponse := fun _ => .error "down" }

/-- Oracle: two search hits, both scraping successfully with non-empty text,
but the chat endpoint always fails — every summarize call and the synthesis
generation call raise. -/
def sumFailNet : Net :=
  { searchResponse := fun _ _ =>
      .ok ⟨200, "", [⟨some "T1", some "u1", none⟩, ⟨some "T2", some "u2", none⟩]⟩,
    scrapeResponse := fun _ => .ok ⟨200, "", ⟨some "body", none, none⟩⟩,
    chatResponse := fun _ => .error "down" }

/-- Oracle: two search hits, one without a URL and one whose page scrapes
successfully but with empty text, so no research line is ever recorded. -/
def noDataNet : Net :=
  { searchResponse := fun _ _ =>
      .ok ⟨200, "", [⟨some "T1", none, none⟩, ⟨some "T2", some "u2", none⟩]⟩,
    scrapeResponse := fun _ => .ok ⟨200, "", ⟨some "", none, none⟩⟩,
    chatResponse := fun _ => .error "down" }

/-- Oracle: two search hits, both scraping and summarizing successfully. -/
def rustNet : Net :=
  { searchResponse := fun _ _ =>
      .ok ⟨200, "", [⟨some "T1", some "u1", none⟩, ⟨some "T2", some "u2", none⟩]⟩,
    scrapeResponse := fun _ => .ok ⟨200, "", ⟨some "body", none, none⟩⟩,
    chatResponse := fun _ => .ok ⟨200, "", "A"⟩ }

/-- The two search items returned by `mixedNet`. -/
def mixedItems : List SearchItem :=
  [⟨some "T1", some "u1", none⟩, ⟨some "T2", some "u2", none⟩]

/-- The two search items returned by `rustNet`. -/
def rustItems : List SearchItem :=
  [⟨some "T1", some "u1", none⟩, ⟨some "T2", some "u2", none⟩]

/-- The two search items returned by `noDataNet`. -/
def noDataItems : List SearchItem :=
  [⟨some "T1", none, none⟩, ⟨some "T2", some "u2", none⟩]

/-- The source block produced for item `it` at index `i` when its scrape and
summarization both succeed, with scrape results given by `scr` and generation
outputs by `gen`. -/
def successBlock (scr : String → ScrapeResult) (gen : String → String)
    (i : Nat) (it : SearchItem) : List String :=
  let url := it.url.getD ""
  ["Source " ++ toString (i + 1) ++ ": " ++ it.title.getD "No title",
   "URL: " ++ url,
   "Summary: " ++ gen (summarize_prompt ((scr url).text.getD "") 300), ""]


/-! ## Lemmas about the enumerated per-item loop -/

/-- The flattened per-item output decomposes around any index `j`. -/
theorem enumIdx_decomp {α β : Type} (f : Nat → α → List β) :
    ∀ (l : List α) (j n : Nat) (hj : j < l.length),
    ∃ A B, ((enumIdx n l).map (fun p => f p.1 p.2)).flatten
      = A ++ f (n + j) (l.get ⟨j, hj⟩) ++ B := by
  intro l
  induction l with
  | nil => intro j n hj; simp at hj
  | cons a rest ih =>
    intro j n hj
    cases j with
    | zero =>
      exact ⟨[], ((enumIdx (n + 1) rest).map (fun p => f p.1 p.2)).flatten,
        by simp [enumIdx]⟩
    | succ j =>
      have hj' : j < rest.length := by
        simpa [Nat.succ_lt_succ_iff] using hj
      obtain ⟨A, B, hAB⟩ := ih j (n + 1) hj'
      refine ⟨f n a ++ A, B, ?_⟩
      have harith : n + 1 + j = n + (j + 1) := by omega
      have hget : (a :: rest).get ⟨j + 1, hj⟩ = rest.get ⟨j, hj'⟩ := rfl
      simp only [enumIdx, List.map_cons, List.flatten_cons, hAB, hget,
        harith, List.append_assoc]

/-- Membership of one item's contribution in the flattened loop output. -/
theorem mem_enumIdx_flatten {α β : Type} (f : Nat → α → List β)
    (l : List α) (j n : Nat) (hj : j < l.length) (x : β)
    (hx : x ∈ f (n + j) (l.get ⟨j, hj⟩)) :
    x ∈ ((enumIdx n l).map (fun p => f p.1 p.2)).flatten := by
  obtain ⟨A, B, hAB⟩ := enumIdx_decomp f l j n hj
  rw [hAB]
  simp only [List.mem_append]
  exact Or.inl (Or.inr hx)

/-- Everything in the flattened loop output comes from some item. -/
theorem exists_of_mem_enumIdx_flatten {α β : Type} (f : Nat → α → List β) :
    ∀ (l : List α) (n : Nat) (x : β),
    x ∈ ((enumIdx n l).map (fun p => f p.1 p.2)).flatten →
    ∃ j, ∃ hj : j < l.length, x ∈ f (n + j) (l.get ⟨j, hj⟩) := by
  intro l
  induction l with
  | nil => intro n x hx; simp [enumIdx] at hx
  | cons a rest ih =>
    intro n x hx
    simp only [enumIdx, List.map_cons, List.flatten_cons, List.mem_append] at hx
    rcases hx with hx | hx
    · exact ⟨0, by simp, by simpa using hx⟩
    · obtain ⟨j, hj, hmem⟩ := ih (n + 1) x hx
      refine ⟨j + 1, by simpa [Nat.succ_lt_succ_iff] using hj, ?_⟩
      have harith : n + (j + 1) = n + 1 + j := by omega
      have hget : (a :: rest).get ⟨j + 1, by simpa [Nat.succ_lt_succ_iff] using hj⟩
          = rest.get ⟨j, hj⟩ := rfl
      rw [harith, hget]
      exact hmem

/-- If every item contributes nothing, the flattened loop output is empty. -/
theorem enumIdx_flatten_eq_nil {α β : Type} (f : Nat → α → List β)
    (l : List α) (n : Nat)
    (h : ∀ j (hj : j < l.length), f (n + j) (l.get ⟨j, hj⟩) = []) :
    ((enumIdx n l).map (fun p => f p.1 p.2)).flatten = [] := by
  rw [List.eq_nil_iff_forall_not_mem]
  intro x hx
  obtain ⟨j, hj, hmem⟩ := exists_of_mem_enumIdx_flatten f l n x hx
  rw [h j hj] at hmem
  exact absurd hmem (List.not_mem_nil x)

/-- Pointwise equal per-item functions give equal flattened loop outputs. -/
theorem enumIdx_flatten_congr {α β : Type} (f g : Nat → α → List β) :
    ∀ (l : List α) (n : Nat),
    (∀ j (hj : j < l.length), f (n + j) (l.get ⟨j, hj⟩) = g (n + j) (l.get ⟨j, hj⟩)) →
    ((enumIdx n l).map (fun p => f p.1 p.2)).flatten
      = ((enumIdx n l).map (fun p => g p.1 p.2)).flatten := by
  intro l
  induction l with
  | nil => intro n _; rfl
  | cons a rest ih =>
    intro n h
    have h0 : f n a = g n a := by simpa using h 0 (by simp)
    have hrest : ((enumIdx (n + 1) rest).map (fun p => f p.1 p.2)).flatten
        = ((enumIdx (n + 1) rest).map (fun p => g p.1 p.2)).flatten := by
      refine ih (n + 1) ?_
      intro j hj
      have harith : n + 1 + j = n + (j + 1) := by omega
      have := h (j + 1) (by simpa [Nat.succ_lt_succ_iff] using hj)
      rw [harith]
      exact this
    simp only [enumIdx, List.map_cons, List.flatten_cons, h0, hrest]

/-! ## String-prefix helpers -/

/-- Appending concatenates the underlying character lists. -/
theorem str_data_append (s t : String) : (s ++ t).data = s.data ++ t.data := by
  cases s; cases t; rfl

/-- A Boolean list prefix survives appending on the right. -/
theorem isPrefixOf_append_of :
    ∀ (a b c : List Char), a.isPrefixOf b = true → a.isPrefixOf (b ++ c) = true := by
  intro a
  induction a with
  | nil => intro b c _; cases b ++ c <;> rfl
  | cons x xs ih =>
    intro b c h
    cases b with
    | nil => simp [List.isPrefixOf] at h
    | cons y ys =>
      simp only [List.isPrefixOf, List.cons_append, Bool.and_eq_true] at h ⊢
      exact ⟨h.1, ih ys c h.2⟩

/-- A string prefix survives appending on the right. -/
theorem startsWithStr_append (a b p : String) (h : startsWithStr a p = true) :
    startsWithStr (a ++ b) p = true := by
  unfold startsWithStr at h ⊢
  rw [str_data_append]
  exact isPrefixOf_append_of p.data a.data b.data h

/-! ## Structural lemmas about `research_topic` -/

/-- An item without a URL, or scraped successfully with empty text,
contributes no line to `research_data`. -/
theorem itemLines_eq_nil (app : AppContext) (net : Net) (i : Nat)
    (result : SearchItem)
    (h : result.url.getD "" = "" ∨
      ∃ sr, app.firecrawl_service.scrape_website net (result.url.getD "") = .ok sr
        ∧ sr.text.getD "" = "") :
    itemLines app net i result = [] := by
  unfold itemLines
  rcases h with h | ⟨sr, hok, htext⟩
  · simp [h]
  · by_cases hu : result.url.getD "" = ""
    · simp [hu]
    · simp only [hu, if_false, hok, htext]
      simp

/-- An item without a URL, or scraped successfully with empty text, emits no
generation call. -/
theorem generateCall_not_mem_itemEvents (app : AppContext) (net : Net)
    (depth : Int) (i : Nat) (result : SearchItem) (p : String)
    (h : result.url.getD "" = "" ∨
      ∃ sr, app.firecrawl_service.scrape_website net (result.url.getD "") = .ok sr
        ∧ sr.text.getD "" = "") :
    Event.generateCall p ∉ itemEvents app net depth i result := by
  unfold itemEvents
  rcases h with h | ⟨sr, hok, htext⟩
  · simp [h]
  · by_cases hu : result.url.getD "" = ""
    · simp [hu]
    · simp only [hu, if_false, hok, htext]
      simp

/-- A per-item scrape failure is recorded as exactly one inline error line. -/
theorem itemLines_scrape_error (app : AppContext) (net : Net) (i : Nat)
    (result : SearchItem) (u e : String)
    (hu : result.url.getD "" = u) (hune : u ≠ "")
    (hf : app.firecrawl_service.scrape_website net u = .error e) :
    itemLines app net i result = ["Error analyzing " ++ u ++ ": " ++ e] := by
  unfold itemLines
  rw [hu]
  simp only [hune, if_false, hf]

/-- A per-item failure — the scrape raising, or the scrape succeeding with
non-empty text and the summarize raising — is caught by the loop's inner
`except` and recorded as exactly one inline error line. -/
theorem itemLines_inner_error (app : AppContext) (net : Net) (i : Nat)
    (result : SearchItem) (u e : String)
    (hu : result.url.getD "" = u) (hune : u ≠ "")
    (hfail : app.firecrawl_service.scrape_website net u = .error e
      ∨ ∃ sr, app.firecrawl_service.scrape_website net u = .ok sr
          ∧ sr.text.getD "" ≠ ""
          ∧ app.groq_service.summarize_content net (sr.text.getD "") 300
            = .error e) :
    itemLines app net i result = ["Error analyzing " ++ u ++ ": " ++ e] := by
  rcases hfail with hf | ⟨sr, hok, htext, hsum⟩
  · exact itemLines_scrape_error app net i result u e hu hune hf
  · unfold itemLines
    rw [hu]
    simp only [hune, if_false, hok, htext, hsum]

/-- A fully successful item contributes its four-line source block, numbered
by its original index. -/
theorem itemLines_success (app : AppContext) (net : Net) (i : Nat)
    (result : SearchItem) (u c s : String) (sr : ScrapeResult)
    (hu : result.url.getD "" = u) (hune : u ≠ "")
    (hok : app.firecrawl_service.scrape_website net u = .ok sr)
    (hc : sr.text.getD "" = c) (hcne : c ≠ "")
    (hs : app.groq_service.summarize_content net c 300 = .ok s) :
    itemLines app net i result
      = ["Source " ++ toString (i + 1) ++ ": " ++ result.title.getD "No title",
         "URL: " ++ u, "Summary: " ++ s, ""] := by
  unfold itemLines
  rw [hu]
  simp only [hune, if_false, hok, hc, hcne, hs]

/-- Any item that has a URL leads with the log line, the progress report and
the scrape request, whatever the outcome. -/
theorem itemEvents_head_segment (app : AppContext) (net : Net) (depth : Int)
    (i : Nat) (result : SearchItem) (u : String)
    (hu : result.url.getD "" = u) (hune : u ≠ "") :
    ∃ t, itemEvents app net depth i result
      = [Event.info ("Analyzing result " ++ toString (i + 1) ++ ": " ++ u),
         Event.progress ((i : Int) + 1) (depth + 1),
         Event.scrapeCall u] ++ t := by
  unfold itemEvents
  rw [hu]
  simp only [hune, if_false]
  cases hscr : app.firecrawl_service.scrape_website net u with
  | error e => exact ⟨[], rfl⟩
  | ok sr =>
    by_cases hc : sr.text.getD "" = ""
    · exact ⟨[], by simp [hc]⟩
    · exact ⟨[Event.generateCall (summarize_prompt (sr.text.getD "") 300)],
        by simp [hc]⟩

/-- Any item that has a URL is scraped, whatever happened to earlier items. -/
theorem scrapeCall_mem_itemEvents (app : AppContext) (net : Net) (depth : Int)
    (i : Nat) (result : SearchItem) (u : String)
    (hu : result.url.getD "" = u) (hune : u ≠ "") :
    Event.scrapeCall u ∈ itemEvents app net depth i result := by
  obtain ⟨t, ht⟩ := itemEvents_head_segment app net depth i result u hu hune
  rw [ht]
  simp

/-- When the search succeeds with a non-empty result list, the trace is the
head events followed by the loop events followed by a tail. -/
theorem research_topic_trace_shape (app : AppContext) (net : Net)
    (topic : String) (depth : Int) (items : List SearchItem)
    (hs : app.firecrawl_service.search_web net topic depth = .ok items)
    (hne : items ≠ []) :
    ∃ extra, (research_topic app net topic depth).2
      = researchHeadEvents topic depth ++ researchEvents app net depth items
        ++ extra := by
  unfold research_topic
  rw [hs]
  have hempty : items.isEmpty = false := by
    cases items with
    | nil => exact absurd rfl hne
    | cons a l => rfl
  simp only [hempty, Bool.false_eq_true, if_false]
  by_cases hd : (researchData app net items).isEmpty
  · exact ⟨[], by simp [hd]⟩
  · simp only [hd, Bool.false_eq_true, if_false]
    cases hg : app.groq_service.generate_text net
        (research_synthesis_prompt topic
          ("\n".intercalate (researchData app net items))) with
    | error e =>
      exact ⟨[Event.generateCall (research_synthesis_prompt topic
        ("\n".intercalate (researchData app net items)))], by simp [hg]⟩
    | ok fa =>
      exact ⟨[Event.generateCall (research_synthesis_prompt topic
        ("\n".intercalate (researchData app net items)))], by simp [hg]⟩

/-- When the search succeeds with a non-empty result list and at least one
line was gathered, the synthesis generation call is issued. -/
theorem research_topic_synthesis_event (app : AppContext) (net : Net)
    (topic : String) (depth : Int) (items : List SearchItem)
    (hs : app.firecrawl_service.search_web net topic depth = .ok items)
    (hne : items ≠ [])
    (hdata : researchData app net items ≠ []) :
    Event.generateCall (research_synthesis_prompt topic
        ("\n".intercalate (researchData app net items)))
      ∈ (research_topic app net topic depth).2 := by
  unfold research_topic
  rw [hs]
  have hempty : items.isEmpty = false := by
    cases items with
    | nil => exact absurd rfl hne
    | cons a l => rfl
  have hd : (researchData app net items).isEmpty = false := by
    cases hx : researchData app net items with
    | nil => exact absurd hx hdata
    | cons a l => rfl
  simp only [hempty, Bool.false_eq_true, if_false, hd]
  cases hg : app.groq_service.generate_text net
      (research_synthesis_prompt topic
        ("\n".intercalate (researchData app net items))) with
  | error e => simp [hg]
  | ok fa => simp [hg]

/-- `enumIdx` preserves length. -/
theorem enumIdx_length {α : Type} : ∀ (n : Nat) (l : List α),
    (enumIdx n l).length = l.length := by
  intro n l
  induction l generalizing n with
  | nil => rfl
  | cons a rest ih => simp [enumIdx, ih]

/-! ## Claim theorems -/

/-- C6: for every oracle and url, `analyze_website(url, include_summary=False)`
issues no generation (or summarization) call: no `generateCall` event occurs
in its trace. -/
theorem analyze_website_no_summary_no_generation (app : AppContext)
    (net : Net) (url : String) (p : String) :
    Event.generateCall p ∉ (analyze_website app net url false).2 := by
  unfold analyze_website
  cases hscr : app.firecrawl_service.scrape_website net url with
  | error e => simp
  | ok sr => simp

/-- C7: when the search step of `research_topic` returns an empty result
list, the result is the informational "no results" string and no generation
call is issued. -/
theorem research_topic_empty_results (app : AppContext) (net : Net)
    (topic : String) (depth : Int)
    (hs : app.firecrawl_service.search_web net topic depth = .ok []) :
    (research_topic app net topic depth).1
      = "No search results found for topic: " ++ topic
    ∧ ∀ p, Event.generateCall p ∉ (research_topic app net topic depth).2 := by
  unfold research_topic
  rw [hs]
  simp [researchHeadEvents]

/-- Witness for C7 at a concrete no-hit oracle. -/
theorem research_topic_empty_results_witness :
    (research_topic testApp emptyNet "t" 0).1
      = "No search results found for topic: " ++ "t"
    ∧ Event.generateCall "p" ∉ (research_topic testApp emptyNet "t" 0).2 :=
  ⟨(research_topic_empty_results testApp emptyNet "t" 0 rfl).1,
   (research_topic_empty_results testApp emptyNet "t" 0 rfl).2 "p"⟩

/-- C9: context construction succeeds exactly when both mandatory API keys
are present and non-empty; any missing or empty key makes `app_lifespan`
fail with an error before an `AppContext` exists. -/
theorem app_lifespan_key_check (g f m : Option String) :
    isOkE (app_lifespan g f m) = (!(g.getD "" == "") && !(f.getD "" == "")) := by
  unfold app_lifespan isOkE
  by_cases hg : g.getD "" = ""
  · simp [hg]
  · by_cases hf : f.getD "" = ""
    · simp [hg, hf]
    · simp [hg, hf]

/-- C8: a `limit` string that does not parse as an integer makes the
`search://{query}/{limit}` resource search with the configured default
limit instead of failing. -/
theorem search_web_limit_fallback (app : AppContext) (net : Net)
    (query limit : String) (h : pythonInt limit = none) :
    Event.searchCall query app.config.default_search_limit
      ∈ (search_web app net query limit).2 := by
  have hpl : parseLimit app.config limit = app.config.default_search_limit := by
    unfold parseLimit
    by_cases he : limit = ""
    · simp [he]
    · simp [he, h]
  unfold search_web
  rw [hpl]
  cases hres : app.firecrawl_service.search_web net query
      app.config.default_search_limit with
  | error e => simp [hres]
  | ok results => simp [hres]

/-- Witness for C8 at the non-integer limit string `abc`. -/
theorem search_web_limit_fallback_witness :
    Event.searchCall "q" (5 : Int) ∈ (search_web testApp emptyNet "q" "abc").2 :=
  search_web_limit_fallback testApp emptyNet "q" "abc" (by decide)

/-- C10: a fully successful source at index `i` is numbered `i+1` by its
original position in the search result list, whatever happened to every
other item. -/
theorem research_sources_original_numbering (app : AppContext) (net : Net)
    (items : List SearchItem) (i : Nat) (hi : i < items.length)
    (u c s : String) (sr : ScrapeResult)
    (hu : (items.get ⟨i, hi⟩).url.getD "" = u) (hune : u ≠ "")
    (hok : app.firecrawl_service.scrape_website net u = .ok sr)
    (hc : sr.text.getD "" = c) (hcne : c ≠ "")
    (hs : app.groq_service.summarize_content net c 300 = .ok s) :
    ("Source " ++ toString (i + 1) ++ ": "
       ++ (items.get ⟨i, hi⟩).title.getD "No title")
      ∈ researchData app net items := by
  unfold researchData
  have hline := itemLines_success app net i (items.get ⟨i, hi⟩) u c s sr
    hu hune hok hc hcne hs
  apply mem_enumIdx_flatten (fun a b => itemLines app net a b) items i 0 hi
  simp only [Nat.zero_add]
  rw [hline]
  simp

/-- Witness for C10: the first item lacks a URL, yet the surviving block is
numbered `Source 2` and no `Source 1` block exists — the numbering starts
above 1 and keeps the gap. -/
theorem research_sources_original_numbering_witness :
    ("Source " ++ toString (1 + 1) ++ ": "
       ++ (noDataItems.get ⟨1, by decide⟩).title.getD "No title")
      ∈ researchData testApp gapNet noDataItems
    ∧ researchData testApp gapNet noDataItems
      = ["Source 2: T2", "URL: u2", "Summary: S", ""] :=
  ⟨research_sources_original_numbering testApp gapNet noDataItems 1 (by decide)
      "u2" "body2" "S" ⟨some "body2", none, none⟩ rfl (by decide) rfl rfl
      (by decide) rfl,
   by decide⟩

/-- C4: a per-item failure in `research_topic` — the scrape raising, or the
summarize raising after a successful scrape with non-empty text — is caught
inside the loop and recorded as the inline error line for that source; every
later item that has a URL is still scraped, whatever its own outcome; and
since at least one line was recorded the synthesis generation call is still
issued (so in particular it is issued whenever some source succeeded). -/
theorem research_loop_tolerates_failure (app : AppContext) (net : Net)
    (topic : String) (depth : Int) (items : List SearchItem) (j k : Nat)
    (hs : app.firecrawl_service.search_web net topic depth = .ok items)
    (hj : j < items.length) (hk : k < items.length) (_hjk : j < k)
    (uj uk e : String)
    (huj : (items.get ⟨j, hj⟩).url.getD "" = uj) (hujne : uj ≠ "")
    (hfail : app.firecrawl_service.scrape_website net uj = .error e
      ∨ ∃ sr, app.firecrawl_service.scrape_website net uj = .ok sr
          ∧ sr.text.getD "" ≠ ""
          ∧ app.groq_service.summarize_content net (sr.text.getD "") 300
            = .error e)
    (huk : (items.get ⟨k, hk⟩).url.getD "" = uk) (hukne : uk ≠ "") :
    ("Error analyzing " ++ uj ++ ": " ++ e) ∈ researchData app net items
    ∧ Event.scrapeCall uk ∈ (research_topic app net topic depth).2
    ∧ Event.generateCall (research_synthesis_prompt topic
        ("\n".intercalate (researchData app net items)))
      ∈ (research_topic app net topic depth).2 := by
  have hne : items ≠ [] := by
    intro h
    rw [h] at hj
    simp at hj
  have hline := itemLines_inner_error app net j (items.get ⟨j, hj⟩) uj e
    huj hujne hfail
  have hmem1 : ("Error analyzing " ++ uj ++ ": " ++ e)
      ∈ researchData app net items := by
    unfold researchData
    apply mem_enumIdx_flatten (fun a b => itemLines app net a b) items j 0 hj
    simp only [Nat.zero_add]
    rw [hline]
    simp
  refine ⟨hmem1, ?_, ?_⟩
  · obtain ⟨extra, hextra⟩ :=
      research_topic_trace_shape app net topic depth items hs hne
    rw [hextra]
    have hk2 : Event.scrapeCall uk ∈ researchEvents app net depth items := by
      unfold researchEvents
      apply mem_enumIdx_flatten (fun a b => itemEvents app net depth a b)
        items k 0 hk
      simp only [Nat.zero_add]
      exact scrapeCall_mem_itemEvents app net depth k (items.get ⟨k, hk⟩)
        uk huk hukne
    simp [hk2]
  · apply research_topic_synthesis_event app net topic depth items hs hne
    intro h0
    rw [h0] at hmem1
    exact absurd hmem1 (List.not_mem_nil _)

/-- Witness for C4 at two concrete oracles: source 1 failing at scrape time
with source 2 succeeding (`mixedNet`), and source 1 failing at summarize
time after a successful scrape, with source 2 still scraped even though its
own summarize fails too (`sumFailNet`). -/
theorem research_loop_tolerates_failure_witness :
    (("Error analyzing " ++ "u1" ++ ": " ++ "netdown")
      ∈ researchData testApp mixedNet mixedItems
    ∧ Event.scrapeCall "u2" ∈ (research_topic testApp mixedNet "t" 2).2
    ∧ Event.generateCall (research_synthesis_prompt "t"
        ("\n".intercalate (researchData testApp mixedNet mixedItems)))
      ∈ (research_topic testApp mixedNet "t" 2).2)
    ∧ (("Error analyzing " ++ "u1" ++ ": " ++ "down")
      ∈ researchData testApp sumFailNet mixedItems
    ∧ Event.scrapeCall "u2" ∈ (research_topic testApp sumFailNet "t" 2).2
    ∧ Event.generateCall (research_synthesis_prompt "t"
        ("\n".intercalate (researchData testApp sumFailNet mixedItems)))
      ∈ (research_topic testApp sumFailNet "t" 2).2) :=
  ⟨research_loop_tolerates_failure testApp mixedNet "t" 2 mixedItems 0 1
    rfl (by decide) (by decide) (by decide)
    "u1" "u2" "netdown"
    rfl (by decide) (Or.inl rfl) rfl (by decide),
   research_loop_tolerates_failure testApp sumFailNet "t" 2 mixedItems 0 1
    rfl (by decide) (by decide) (by decide)
    "u1" "u2" "down"
    rfl (by decide)
    (Or.inr ⟨⟨some "body", none, none⟩, rfl, by decide, rfl⟩)
    rfl (by decide)⟩

/-- C1 counterexample: with one search hit whose scrape fails (HTTP 500),
no source block is gathered, yet `research_topic` does NOT return the
"could not gather" string: the inline error line counts as research data, so
the synthesis generation call IS issued and a composed document returned. -/
theorem research_topic_failed_sources_counterexample :
    testApp.firecrawl_service.search_web ceNet "t" 1
      = .ok [⟨some "T", some "u", none⟩]
    ∧ testApp.firecrawl_service.scrape_website ceNet "u"
      = .error "Firecrawl API error: 500 - boom"
    ∧ (research_topic testApp ceNet "t" 1).1
      = "# Research on: t\n\nA\n\n## Sources\n\nError analyzing u: Firecrawl API error: 500 - boom"
    ∧ (research_topic testApp ceNet "t" 1).1
      ≠ "Could not gather meaningful research data on topic: t"
    ∧ Event.generateCall (research_synthesis_prompt "t"
        "Error analyzing u: Firecrawl API error: 500 - boom")
      ∈ (research_topic testApp ceNet "t" 1).2 :=
  ⟨rfl, rfl, rfl, by decide, by decide⟩

/-- C1 as amended: when the search returns a non-empty list and every item
either lacks a URL or scrapes successfully with empty text — so that no
source block and no inline error line is recorded — `research_topic` returns
the "could not gather" string and issues no generation call at all.  (A
scrape or summarize failure instead records an inline error line, which
counts as gathered data and triggers synthesis.) -/
theorem research_topic_no_gathered_data (app : AppContext) (net : Net)
    (topic : String) (depth : Int) (items : List SearchItem)
    (hs : app.firecrawl_service.search_web net topic depth = .ok items)
    (hne : items ≠ [])
    (hall : ∀ j : Fin items.length,
      (items.get j).url.getD "" = "" ∨
      ∃ sr, app.firecrawl_service.scrape_website net
          ((items.get j).url.getD "") = .ok sr ∧ sr.text.getD "" = "") :
    (research_topic app net topic depth).1
      = "Could not gather meaningful research data on topic: " ++ topic
    ∧ ∀ p, Event.generateCall p ∉ (research_topic app net topic depth).2 := by
  have hempty : items.isEmpty = false := by
    cases items with
    | nil => exact absurd rfl hne
    | cons a l => rfl
  have hdata : researchData app net items = [] := by
    unfold researchData
    apply enumIdx_flatten_eq_nil
    intro j hj
    simp only [Nat.zero_add]
    exact itemLines_eq_nil app net j _ (hall ⟨j, hj⟩)
  constructor
  · unfold research_topic
    rw [hs]
    simp [hempty, hdata]
  · intro p
    unfold research_topic
    rw [hs]
    simp only [hempty, Bool.false_eq_true, if_false, hdata, List.isEmpty_nil,
      if_true]
    intro hmem
    simp only [researchHeadEvents, List.mem_append, List.mem_cons,
      List.not_mem_nil, or_false] at hmem
    rcases hmem with (h | h | h | h) | hmem
    · exact Event.noConfusion h
    · exact Event.noConfusion h
    · exact Event.noConfusion h
    · exact Event.noConfusion h
    · obtain ⟨j, hj, hin⟩ := exists_of_mem_enumIdx_flatten
        (fun a b => itemEvents app net depth a b) items 0 _ hmem
      simp only [Nat.zero_add] at hin
      exact generateCall_not_mem_itemEvents app net depth j _ p
        (hall ⟨j, hj⟩) hin

/-- Witness for the amended C1 at a concrete oracle: one item without a URL
and one whose page has empty text. -/
theorem research_topic_no_gathered_data_witness :
    (research_topic testApp noDataNet "t" 2).1
      = "Could not gather meaningful research data on topic: " ++ "t"
    ∧ Event.generateCall "p" ∉ (research_topic testApp noDataNet "t" 2).2 := by
  have h := research_topic_no_gathered_data testApp noDataNet "t" 2
    noDataItems rfl (by decide)
    (by
      intro j
      rcases j with ⟨j, hj⟩
      rcases j with _ | _ | n
      · exact Or.inl rfl
      · exact Or.inr ⟨⟨some "", none, none⟩, rfl, rfl⟩
      · exfalso
        have hlen : noDataItems.length = 2 := rfl
        omega)
  exact ⟨h.1, h.2 "p"⟩

/-- C2 counterexample: in a fully successful one-item run, the only
`progress (1, depth+1)` report appears in the trace strictly BEFORE the
item's scrape and summarize network calls — it is emitted when the item is
about to be processed, not after the item completes. -/
theorem research_topic_progress_order_counterexample :
    (research_topic testApp okNet "t" 1).2 =
      [Event.info ("Researching topic: " ++ "t" ++ " with depth " ++ toString (1 : Int)),
       Event.info "Searching web...",
       Event.progress 0 2,
       Event.searchCall "t" 1,
       Event.info ("Analyzing result " ++ toString (0 + 1) ++ ": " ++ "u"),
       Event.progress 1 2,
       Event.scrapeCall "u",
       Event.generateCall (summarize_prompt "body" 300),
       Event.generateCall (research_synthesis_prompt "t"
         "Source 1: T\nURL: u\nSummary: A\n")]
    ∧ ((research_topic testApp okNet "t" 1).2).count (Event.progress 1 2) = 1
    ∧ ((research_topic testApp okNet "t" 1).2).indexOf (Event.progress 1 2)
      < ((research_topic testApp okNet "t" 1).2).indexOf (Event.scrapeCall "u") :=
  ⟨rfl, by decide, by decide⟩

/-- C2 as amended: for every item that has a URL, the loop emits, as three
consecutive trace events, the item's log line, the progress report
`(i+1)/(depth+1)`, and THEN the item's scrape call — the progress report
for an item precedes that item's network calls rather than following its
completion, and every side-effecting step occurs in this fixed program
order. -/
theorem research_topic_progress_precedes_scrape (app : AppContext)
    (net : Net) (topic : String) (depth : Int) (items : List SearchItem)
    (i : Nat) (hi : i < items.length) (u : String)
    (hs : app.firecrawl_service.search_web net topic depth = .ok items)
    (hu : (items.get ⟨i, hi⟩).url.getD "" = u) (hune : u ≠ "") :
    ∃ pre post, (research_topic app net topic depth).2
      = pre ++ [Event.info ("Analyzing result " ++ toString (i + 1) ++ ": " ++ u),
                Event.progress ((i : Int) + 1) (depth + 1),
                Event.scrapeCall u] ++ post := by
  have hne : items ≠ [] := by
    intro h
    rw [h] at hi
    simp at hi
  obtain ⟨extra, hextra⟩ :=
    research_topic_trace_shape app net topic depth items hs hne
  obtain ⟨A, B, hAB⟩ := enumIdx_decomp
    (fun a b => itemEvents app net depth a b) items i 0 hi
  obtain ⟨t, ht⟩ := itemEvents_head_segment app net depth i
    (items.get ⟨i, hi⟩) u hu hune
  simp only [Nat.zero_add] at hAB
  refine ⟨researchHeadEvents topic depth ++ A, t ++ B ++ extra, ?_⟩
  rw [hextra]
  unfold researchEvents
  rw [hAB, ht]
  simp [List.append_assoc]

/-- Witness for the amended C2 at a concrete two-item oracle. -/
theorem research_topic_progress_precedes_scrape_witness :
    ∃ pre post, (research_topic testApp mixedNet "t" 2).2
      = pre ++ [Event.info ("Analyzing result " ++ toString (1 + 1) ++ ": " ++ "u2"),
                Event.progress ((1 : Nat) + 1) ((2 : Int) + 1),
                Event.scrapeCall "u2"] ++ post :=
  research_topic_progress_precedes_scrape testApp mixedNet "t" 2 mixedItems
    1 (by decide) "u2" rfl rfl (by decide)

/-- C3 counterexample: a non-200 upstream response (HTTP 500 from the scrape
of a research source) does NOT surface as an "Error"-prefixed string from
`research_topic`: the failure is absorbed as an inline line and the handler
returns a "# Research on: ..." document. -/
theorem research_topic_inline_error_counterexample :
    ceNet.scrapeResponse "u" = .ok ⟨500, "boom", ⟨none, none, none⟩⟩
    ∧ Event.scrapeCall "u" ∈ (research_topic testApp ceNet "t" 1).2
    ∧ startsWithStr (research_topic testApp ceNet "t" 1).1 "Error" = false
    ∧ (research_topic testApp ceNet "t" 1).1
      = "# Research on: t\n\nA\n\n## Sources\n\nError analyzing u: Firecrawl API error: 500 - boom" :=
  ⟨rfl, by decide, by decide, rfl⟩

/-- C3 as amended: a non-200 upstream response makes each service raise the
corresponding API-error exception, and every failure that reaches a public
handler's top-level guard — from any of the three resources and four tools,
including both of `research_topic`'s top-level failure paths (the search
request and the synthesis generation request) — is returned as an
"Error"-prefixed string rather than propagated.  (The one exception is a
scrape/summarize failure inside `research_topic`'s per-source loop, which is
recorded inline in a non-"Error"-prefixed document; see the
counterexample.) -/
theorem error_prefix_policy (app : AppContext) (net : Net) :
    (∀ url r, net.scrapeResponse url = .ok r → r.status ≠ 200 →
      app.firecrawl_service.scrape_website net url = .error (firecrawlErrMsg r))
    ∧ (∀ q l r, net.searchResponse q l = .ok r → r.status ≠ 200 →
      app.firecrawl_service.search_web net q l = .error (firecrawlErrMsg r))
    ∧ (∀ p r, net.chatResponse p = .ok r → r.status ≠ 200 →
      app.groq_service.generate_text net p = .error (groqErrMsg r))
    ∧ (∀ url e, app.firecrawl_service.scrape_website net url = .error e →
      startsWithStr (get_website_content app net url).1 "Error" = true
      ∧ startsWithStr (get_website_metadata app net url).1 "Error" = true
      ∧ ∀ b, startsWithStr (analyze_website app net url b).1 "Error" = true)
    ∧ (∀ url sr e, app.firecrawl_service.scrape_website net url = .ok sr →
      sr.text.getD "" ≠ "" →
      app.groq_service.summarize_content net (sr.text.getD "") 500 = .error e →
      startsWithStr (analyze_website app net url true).1 "Error" = true)
    ∧ (∀ q lim e,
      app.firecrawl_service.search_web net q (parseLimit app.config lim)
        = .error e →
      startsWithStr (search_web app net q lim).1 "Error" = true)
    ∧ (∀ topic depth e,
      app.firecrawl_service.search_web net topic depth = .error e →
      startsWithStr (research_topic app net topic depth).1 "Error" = true)
    ∧ (∀ topic depth items e,
      app.firecrawl_service.search_web net topic depth = .ok items →
      items ≠ [] →
      researchData app net items ≠ [] →
      app.groq_service.generate_text net (research_synthesis_prompt topic
        ("\n".intercalate (researchData app net items))) = .error e →
      startsWithStr (research_topic app net topic depth).1 "Error" = true)
    ∧ (∀ p e, app.groq_service.generate_text net p = .error e →
      startsWithStr (generate_content app net p).1 "Error" = true)
    ∧ (∀ content ml e, app.groq_service.summarize_content net content ml
        = .error e →
      startsWithStr (summarize_text app net content ml).1 "Error" = true) := by
  refine ⟨?_, ?_, ?_, ?_, ?_, ?_, ?_, ?_, ?_, ?_⟩
  · intro url r hr hst
    unfold FirecrawlService.scrape_website
    rw [hr]
    simp [hst]
  · intro q l r hr hst
    unfold FirecrawlService.search_web
    rw [hr]
    simp [hst]
  · intro p r hr hst
    unfold GroqService.generate_text
    rw [hr]
    simp [hst]
  · intro url e he
    refine ⟨?_, ?_, ?_⟩
    · unfold get_website_content
      rw [he]
      exact startsWithStr_append "Error scraping website: " e "Error" (by decide)
    · unfold get_website_metadata
      rw [he]
      exact startsWithStr_append "Error getting metadata: " e "Error" (by decide)
    · intro b
      unfold analyze_website
      rw [he]
      exact startsWithStr_append "Error analyzing website: " e "Error" (by decide)
  · intro url sr e hok htext hsum
    unfold analyze_website
    rw [hok]
    simp only [htext, true_and, if_true, ne_eq, not_false_iff]
    rw [hsum]
    exact startsWithStr_append "Error analyzing website: " e "Error" (by decide)
  · intro q lim e he
    unfold search_web
    simp only [he]
    exact startsWithStr_append "Error searching web: " e "Error" (by decide)
  · intro topic depth e he
    unfold research_topic
    rw [he]
    exact startsWithStr_append "Error researching topic: " e "Error" (by decide)
  · intro topic depth items e hsrch hne hdne hg
    unfold research_topic
    rw [hsrch]
    have hempty : items.isEmpty = false := by
      cases items with
      | nil => exact absurd rfl hne
      | cons a l => rfl
    have hdempty : (researchData app net items).isEmpty = false := by
      cases hx : researchData app net items with
      | nil => exact absurd hx hdne
      | cons a l => rfl
    simp only [hempty, Bool.false_eq_true, if_false, hdempty, hg]
    exact startsWithStr_append "Error researching topic: " e "Error" (by decide)
  · intro p e he
    unfold generate_content
    rw [he]
    exact startsWithStr_append "Error generating content: " e "Error" (by decide)
  · intro content ml e he
    unfold summarize_text
    rw [he]
    exact startsWithStr_append "Error summarizing content: " e "Error" (by decide)

/-- Witness for the amended C3: a non-200 scrape raises the API-error
exception, transport failures yield "Error"-prefixed strings from the
resource and tool handlers, and a synthesis-generation failure after a
gathered loop yields the "Error"-prefixed research result. -/
theorem error_prefix_policy_witness :
    testApp.firecrawl_service.scrape_website ceNet "u"
      = .error (firecrawlErrMsg
          (⟨500, "boom", ⟨none, none, none⟩⟩ : HttpResponse ScrapeResult))
    ∧ startsWithStr (get_website_content testApp errNet "u").1 "Error" = true
    ∧ startsWithStr (get_website_metadata testApp errNet "u").1 "Error" = true
    ∧ startsWithStr (analyze_website testApp errNet "u" true).1 "Error" = true
    ∧ startsWithStr (search_web testApp errNet "q" "abc").1 "Error" = true
    ∧ startsWithStr (research_topic testApp errNet "t" 2).1 "Error" = true
    ∧ startsWithStr (research_topic testApp sumFailNet "t" 2).1 "Error" = true
    ∧ startsWithStr (generate_content testApp errNet "p").1 "Error" = true
    ∧ startsWithStr (summarize_text testApp errNet "c" 500).1 "Error" = true := by
  have h1 := (error_prefix_policy testApp ceNet).1 "u"
    ⟨500, "boom", ⟨none, none, none⟩⟩ rfl (by decide)
  have h2 := (error_prefix_policy testApp errNet).2.2.2.1 "u" "down" rfl
  have h3 := (error_prefix_policy testApp errNet).2.2.2.2.2.1 "q" "abc" "down" rfl
  have h4 := (error_prefix_policy testApp errNet).2.2.2.2.2.2.1 "t" 2 "down" rfl
  have h5 := (error_prefix_policy testApp sumFailNet).2.2.2.2.2.2.2.1
    "t" 2 mixedItems "down" rfl (by decide) (by decide) rfl
  have h6 := (error_prefix_policy testApp errNet).2.2.2.2.2.2.2.2.1 "p" "down" rfl
  have h7 := (error_prefix_policy testApp errNet).2.2.2.2.2.2.2.2.2 "c" 500 "down" rfl
  exact ⟨h1, h2.1, h2.2.1, h2.2.2 true, h3, h4, h5, h6, h7⟩

/-- C5: when the search returns `depth` items and every item has a URL and
scrapes and summarizes successfully, `research_topic` returns exactly the
composed document: the `# Research on: {topic}` header, the synthesized
analysis, then a `## Sources` section listing one source block per item, in
original search-rank order (the blocks are enumerated in list order). -/
theorem research_topic_success_composition (app : AppContext) (net : Net)
    (topic : String) (depth : Int) (items : List SearchItem)
    (scr : String → ScrapeResult) (gen : String → String)
    (hs : app.firecrawl_service.search_web net topic depth = .ok items)
    (hne : items ≠ [])
    (hlen : (items.length : Int) = depth)
    (hurl : ∀ j : Fin items.length, (items.get j).url.getD "" ≠ "")
    (hscr : ∀ u, app.firecrawl_service.scrape_website net u = .ok (scr u))
    (htext : ∀ u, (scr u).text.getD "" ≠ "")
    (hgen : ∀ p, app.groq_service.generate_text net p = .ok (gen p)) :
    (research_topic app net topic depth).1
      = "# Research on: " ++ topic ++ "\n\n"
        ++ gen (research_synthesis_prompt topic
            ("\n".intercalate ((enumIdx 0 items).map
              (fun p => successBlock scr gen p.1 p.2)).flatten))
        ++ "\n\n## Sources\n\n"
        ++ "\n".intercalate ((enumIdx 0 items).map
              (fun p => successBlock scr gen p.1 p.2)).flatten
    ∧ ((enumIdx 0 items).map (fun p => successBlock scr gen p.1 p.2)).length
      = items.length
    ∧ (items.length : Int) = depth := by
  have hdata : researchData app net items
      = ((enumIdx 0 items).map
          (fun p => successBlock scr gen p.1 p.2)).flatten := by
    unfold researchData
    apply enumIdx_flatten_congr
    intro j hj
    simp only [Nat.zero_add]
    have hsum : app.groq_service.summarize_content net
        ((scr ((items.get ⟨j, hj⟩).url.getD "")).text.getD "") 300
        = .ok (gen (summarize_prompt
            ((scr ((items.get ⟨j, hj⟩).url.getD "")).text.getD "") 300)) :=
      hgen _
    rw [itemLines_success app net j (items.get ⟨j, hj⟩)
      ((items.get ⟨j, hj⟩).url.getD "")
      ((scr ((items.get ⟨j, hj⟩).url.getD "")).text.getD "")
      (gen (summarize_prompt
        ((scr ((items.get ⟨j, hj⟩).url.getD "")).text.getD "") 300))
      (scr ((items.get ⟨j, hj⟩).url.getD ""))
      rfl (hurl ⟨j, hj⟩) (hscr _) rfl (htext _) hsum]
    rfl
  have hdne : researchData app net items ≠ [] := by
    rw [hdata]
    cases items with
    | nil => exact absurd rfl hne
    | cons a rest => simp [enumIdx, successBlock]
  have hempty : items.isEmpty = false := by
    cases items with
    | nil => exact absurd rfl hne
    | cons a l => rfl
  have hdempty : (researchData app net items).isEmpty = false := by
    cases hx : researchData app net items with
    | nil => exact absurd hx hdne
    | cons a l => rfl
  refine ⟨?_, by simp [List.length_map, enumIdx_length], hlen⟩
  unfold research_topic
  rw [hs]
  simp only [hempty, Bool.false_eq_true, if_false, hdempty]
  rw [hgen (research_synthesis_prompt topic
    ("\n".intercalate (researchData app net items)))]
  rw [hdata]

/-- Witness for C5: the worked example from the specification — topic
`rust ownership`, `depth = 2`, two items which both scrape and summarize
successfully — yields the fully composed document with both source blocks
in order. -/
theorem research_topic_success_composition_witness :
    (research_topic testApp rustNet "rust ownership" 2).1
      = "# Research on: rust ownership\n\nA\n\n## Sources\n\nSource 1: T1\nURL: u1\nSummary: A\n\nSource 2: T2\nURL: u2\nSummary: A\n"
    ∧ ((enumIdx 0 rustItems).map
        (fun p => successBlock (fun _ => ⟨some "body", none, none⟩)
          (fun _ => "A") p.1 p.2)).length = rustItems.length := by
  have h := research_topic_success_composition testApp rustNet
    "rust ownership" 2 rustItems
    (fun _ => ⟨some "body", none, none⟩) (fun _ => "A")
    rfl (by decide) (by decide)
    (by
      intro j
      rcases j with ⟨j, hj⟩
      rcases j with _ | _ | n
      · exact (by decide : (("u1" : String)) ≠ "")
      · exact (by decide : (("u2" : String)) ≠ "")
      · exfalso
        have hlen : rustItems.length = 2 := rfl
        omega)
    (fun u => rfl) (fun u => (by decide : (("body" : String)) ≠ "")) (fun p => rfl)
  exact ⟨h.1.trans (by decide), h.2.1⟩
